import Mathlib

set_option maxRecDepth 8192

/-!
Verification of the HerdMaster request admission middleware
(`pkg/gin/middleware`: the rate limiter and the request-identifier
middleware) against its natural-language specification.

The Go source is shallowly embedded: the mutable fields of the
`RateLimiter` struct (four `atomic.Int32` counters plus the buffered
`chan struct{}` used as a counting semaphore) become an explicit state
record, and each handler becomes a function from state and per-request
inputs to state and an observable result.  Machine integers are modelled
as `Int` (no claim here depends on 32-bit wrap-around) and the semaphore
occupancy as `Nat` (a buffered channel never holds a negative number of
tokens).  Go `defer` statements are applied, in LIFO order, on every
exit path of the embedded functions, including the path on which the
downstream handler panics.
-/

namespace HerdMaster

/-! ## Rate limiter: configuration and state (src part_007, lines 16-35) -/

/-- Default for `maxRunning` (line 17 of the middleware source). -/
def defaultMaxRunning : Int := 100

/-- Default for `maxWait` (line 18). -/
def defaultMaxWait : Int := 100

/-- Default for `retryAfter` (line 19). -/
def defaultRetryAfter : Int := 1

/-- One `lg.Warn` call made by `normalizeParams`: the message, the value
logged under the "supplied limit" key and the value logged under the
"default" key. -/
structure Warning where
  msg : String
  supplied : Int
  applied : Int
  deriving Repr, DecidableEq

/-- Embedding of `normalizeParams` (lines 151-176).  Each branch mirrors
the Go statement order exactly: the reassignment `x = defaultX` happens
BEFORE the `lg.Warn` call, and the `Warn` call logs the current value of
the variable under the "supplied limit" key; the shadowing `let` below
reproduces that reassignment. -/
def normalizeParams (maxRunning maxWait retryAfter : Int) :
    (Int × Int × Int) × List Warning :=
  let (maxRunning, w1) :=
    if maxRunning < 1 then
      let maxRunning := defaultMaxRunning
      (maxRunning,
        [Warning.mk "invalid max connection limit: limit was reset to default"
          maxRunning defaultMaxRunning])
    else (maxRunning, ([] : List Warning))
  let (maxWait, w2) :=
    if maxWait < 1 then
      let maxWait := defaultMaxWait
      (maxWait,
        [Warning.mk "invalid max total limit: limit was reset to default"
          maxWait defaultMaxWait])
    else (maxWait, ([] : List Warning))
  let (retryAfter, w3) :=
    if retryAfter < 1 then
      let retryAfter := defaultRetryAfter
      (retryAfter,
        [Warning.mk "invalid max retry after: retry after was reset to default"
          retryAfter defaultRetryAfter])
    else (retryAfter, ([] : List Warning))
  ((maxRunning, maxWait, retryAfter), w1 ++ w2 ++ w3)

/-- The immutable configuration fields of the `RateLimiter` struct
(line 26). -/
structure RLConfig where
  maxRunning : Int
  maxWait : Int
  retryAfter : Int
  deriving Repr, DecidableEq

/-- The mutable fields of the `RateLimiter` struct (lines 24, 27):
the four atomic counters and the occupancy of the buffered channel
`limiter` (its capacity lives in the configuration). -/
structure RLState where
  running : Int
  total : Int
  timedOut : Int
  rejected : Int
  limiter : Nat
  deriving Repr, DecidableEq

/-- The zero state a fresh `RateLimiter` starts in: all atomic counters
are zero values and the buffered channel is empty. -/
def RLState.init : RLState := ⟨0, 0, 0, 0, 0⟩

/-- Embedding of the constructor result: configuration after
normalization, the warnings emitted while normalizing, and the initial
mutable state. -/
structure RateLimiter where
  cfg : RLConfig
  warnings : List Warning
  st : RLState
  deriving Repr, DecidableEq

/-- Embedding of `NewRateLimiter` (lines 30-35): normalize the three
numeric arguments, then build the struct with an empty buffered channel
of capacity `maxRunning` and zero-valued atomic counters.  Construction
is total: it always returns a limiter. -/
def NewRateLimiter (maxRunning maxWait retryAfter : Int) : RateLimiter :=
  let n := normalizeParams maxRunning maxWait retryAfter
  { cfg := ⟨n.1.1, n.1.2.1, n.1.2.2⟩, warnings := n.2, st := RLState.init }

/-! ## Request identifier middleware (src pkg/gin/middleware/reqID.go)

Errors in Go are interface values.  The two concrete error types of
reqID.go, `ErrTypeCastFailed` and `ErrFallbackUuidUsed`, are returned as
pointers to freshly heap-allocated structs and implement neither an
`Is` nor an `Unwrap` method, so `errors.Is(err, target)` on them reduces
to Go interface equality, which for two pointers is pointer identity.
We model a pointer by the address of its allocation: a `Nat` drawn from
a strictly increasing allocation counter, so two distinct allocations
never share an address. -/

/-- Which concrete error struct a heap-allocated error value is. -/
inductive ErrKind where
  | typeCastFailed
  | fallbackUuidUsed
  deriving Repr, DecidableEq

/-- A Go error value of one of the two concrete types of reqID.go:
the address of its allocation and its `msg` field. -/
structure GoError where
  addr : Nat
  kind : ErrKind
  msg : String
  deriving Repr, DecidableEq

/-- Embedding of `errors.Is(e, target)` for the error types of
reqID.go: neither type has an `Is` or `Unwrap` method, so the chain has
length one and the test is Go interface equality on two pointers, i.e.
pointer identity. -/
def errorsIs (e target : GoError) : Bool :=
  e.addr == target.addr

/-- Evaluation of `err.Error()` on a Go `error` interface value that may
be `nil`: calling a method on the `nil` interface value panics with a
nil-pointer dereference, modelled by `none`. -/
def errError : Option GoError → Option String
  | none => none
  | some e => some e.msg

/-- A value stored in the gin context under the `X-Request-ID` key:
either a string or some non-string value (whose `%s` formatting is
kept, for the error message). -/
inductive CtxVal where
  | str (s : String)
  | nonStr (rep : String)
  deriving Repr, DecidableEq

/-- Result of `GetRequestIDFromCtx`: the returned identifier and error,
the allocation counter after the call, and the writes performed by
`fallbackUuidHandler` (context value and response header), when any. -/
structure GetReqIDResult where
  requestID : String
  err : Option GoError
  alloc : Nat
  ctxAfter : Option CtxVal
  headerWrite : Option String
  deriving Repr, DecidableEq

/-- Embedding of `GetRequestIDFromCtx` (reqID.go lines 63-82) together
with `fallbackUuidHandler` (lines 84-89).  `ctxVal` is the value held by
the gin context under `RequestIDKey` (`none` when `c.Get` reports the
key missing), `freshUuid` the string `genUuid()` would produce on this
call, `alloc` the allocation counter.
Missing key: a fresh UUID is generated, stored in the context and the
response header, and returned with a new `ErrFallbackUuidUsed`.
Non-string value: the empty string is returned with a new
`ErrTypeCastFailed`; no fallback identifier is generated on this path.
String value: it is returned with a `nil` error. -/
def GetRequestIDFromCtx (ctxVal : Option CtxVal) (freshUuid : String)
    (alloc : Nat) : GetReqIDResult :=
  match ctxVal with
  | none =>
      { requestID := freshUuid
        err := some ⟨alloc, ErrKind.fallbackUuidUsed,
          "X-Request-Id not found; generated new UUID: " ++ freshUuid⟩
        alloc := alloc + 1
        ctxAfter := some (CtxVal.str freshUuid)
        headerWrite := some freshUuid }
  | some (CtxVal.str s) =>
      { requestID := s, err := none, alloc := alloc,
        ctxAfter := some (CtxVal.str s), headerWrite := none }
  | some (CtxVal.nonStr rep) =>
      { requestID := ""
        err := some ⟨alloc, ErrKind.typeCastFailed,
          "cannot convert X-Request-Id to string: " ++ rep⟩
        alloc := alloc + 1
        ctxAfter := some (CtxVal.nonStr rep)
        headerWrite := none }

/-! ## UUID generation (`genUuid`, reqID.go lines 91-93)

`genUuid` calls `uuid.New().String()` of github.com/google/uuid.
`uuid.New = Must(NewRandom())` fills 16 bytes from the random source and
then forces the RFC4122 version-4 layout:
`uuid[6] = (uuid[6] & 0x0f) | 0x40` and
`uuid[8] = (uuid[8] & 0x3f) | 0x80`.
`String()` hex-encodes the 16 bytes in lowercase with dashes after bytes
3, 5, 7 and 9.  The 16 random bytes are the explicit input here. -/

/-- The `hextable` constant of the encoding/hex machinery the uuid
library indexes into. -/
def hexTable : String := "0123456789abcdef"

/-- Lowercase hexadecimal digit character for a value below 16. -/
def hexDigit (n : Nat) : Char :=
  hexTable.data.getD n '0'

/-- The version byte forced by `uuid.NewRandom`:
`(b & 0x0f) | 0x40`. -/
def setVersion4 (b : Nat) : Nat := (b &&& 0x0f) ||| 0x40

/-- The variant byte forced by `uuid.NewRandom`:
`(b & 0x3f) | 0x80`. -/
def setVariantRFC4122 (b : Nat) : Nat := (b &&& 0x3f) ||| 0x80

/-- The 16 bytes of the UUID produced by `uuid.NewRandom` from the 16
random bytes `r`: byte 6 carries the version, byte 8 the variant, all
other bytes are the raw random bytes. -/
def uuidBytes (r : Fin 16 → Fin 256) (i : Fin 16) : Nat :=
  if i = 6 then setVersion4 (r 6)
  else if i = 8 then setVariantRFC4122 (r 8)
  else r i

/-- The character list written by `uuid.UUID.String()`: two lowercase
hex digits per byte, with a dash after bytes 3, 5, 7 and 9 (the
8-4-4-4-12 layout). -/
def uuidChars (b : Fin 16 → Nat) : List Char :=
  [hexDigit (b 0 / 16), hexDigit (b 0 % 16),
   hexDigit (b 1 / 16), hexDigit (b 1 % 16),
   hexDigit (b 2 / 16), hexDigit (b 2 % 16),
   hexDigit (b 3 / 16), hexDigit (b 3 % 16), '-',
   hexDigit (b 4 / 16), hexDigit (b 4 % 16),
   hexDigit (b 5 / 16), hexDigit (b 5 % 16), '-',
   hexDigit (b 6 / 16), hexDigit (b 6 % 16),
   hexDigit (b 7 / 16), hexDigit (b 7 % 16), '-',
   hexDigit (b 8 / 16), hexDigit (b 8 % 16),
   hexDigit (b 9 / 16), hexDigit (b 9 % 16), '-',
   hexDigit (b 10 / 16), hexDigit (b 10 % 16),
   hexDigit (b 11 / 16), hexDigit (b 11 % 16),
   hexDigit (b 12 / 16), hexDigit (b 12 % 16),
   hexDigit (b 13 / 16), hexDigit (b 13 % 16),
   hexDigit (b 14 / 16), hexDigit (b 14 % 16),
   hexDigit (b 15 / 16), hexDigit (b 15 % 16)]

/-- Embedding of `genUuid` (reqID.go lines 91-93), with the 16 bytes
drawn from the random source as explicit input. -/
def genUuid (r : Fin 16 → Fin 256) : String :=
  String.mk (uuidChars (uuidBytes r))

/-- Whether a character is a lowercase hexadecimal digit. -/
def isHexChar (c : Char) : Bool :=
  (decide ('0' ≤ c) && decide (c ≤ '9')) ||
  (decide ('a' ≤ c) && decide (c ≤ 'f'))

/-- RFC4122 version-4 well-formedness of a UUID string, mirroring the
`uuid4_rfc4122` rule the repository tests check generated identifiers
against: 36 characters in the 8-4-4-4-12 lowercase hex layout, the
first digit of the third group is `4` and the first digit of the fourth
group is one of `8`, `9`, `a`, `b`. -/
def isValidV4 (s : String) : Bool :=
  match s.data with
  | qa0 :: qa1 :: qa2 :: qa3 :: qa4 :: qa5 :: qa6 :: qa7 :: qd0 ::
    qb0 :: qb1 :: qb2 :: qb3 :: qd1 ::
    qv0 :: qv1 :: qv2 :: qv3 :: qd2 ::
    qw0 :: qw1 :: qw2 :: qw3 :: qd3 ::
    qc0 :: qc1 :: qc2 :: qc3 :: qc4 :: qc5 :: qc6 :: qc7 :: qc8 ::
    qc9 :: qc10 :: qc11 :: [] =>
      qd0 == '-' && qd1 == '-' && qd2 == '-' && qd3 == '-' &&
      qv0 == '4' &&
      (qw0 == '8' || qw0 == '9' || qw0 == 'a' || qw0 == 'b') &&
      [qa0, qa1, qa2, qa3, qa4, qa5, qa6, qa7,
       qb0, qb1, qb2, qb3, qv1, qv2, qv3, qw1, qw2, qw3,
       qc0, qc1, qc2, qc3, qc4, qc5, qc6, qc7, qc8, qc9, qc10,
       qc11].all isHexChar
  | _ => false

/-- The observable result of `RequestIDMiddleware` for one request: the
value stored in the gin context under `RequestIDKey` and the value set
on the outbound response header. -/
structure ReqIDMwResult where
  ctxVal : String
  respHeader : String
  deriving Repr, DecidableEq

/-- Embedding of the handler returned by `RequestIDMiddleware`
(reqID.go lines 37-57): read the inbound `X-Request-ID` header; when it
is empty (`c.GetHeader` returns the empty string when the header is
absent) generate a fresh UUID from the random bytes `r`; store the
resulting identifier in the context and on the outbound response
header. -/
def RequestIDMiddleware (inboundHeader : String) (r : Fin 16 → Fin 256) :
    ReqIDMwResult :=
  let requestID := if inboundHeader == "" then genUuid r else inboundHeader
  { ctxVal := requestID, respHeader := requestID }

/-! ## The admission handler (`GetRateLimiter`, src part_007 lines 37-111)

The handler is embedded as a function of the shared mutable state and
the per-request inputs.  The sequential semantics used here reads the
value of `rm.total.Load()` at line 83 as the post-increment value
`s.total + 1` (the contribution of every other in-flight request is
carried by the pre-state `s`).  The fine-grained interleaving of several
concurrent calls is modelled separately below by a labelled transition
system over the same shared state. -/

/-- Per-request inputs of one `GetRateLimiter` handler invocation.
`ctxVal` is the gin-context value under `RequestIDKey`; `freshUuid` is
what `genUuid()` would return if the fallback fires;
`slotAvailableFirst` resolves the `select` race at lines 99-109: `true`
means the buffered-channel send became ready and was chosen before the
Done channel of the request context fired; `downstreamPanics` states
whether `c.Next()` panics, and otherwise `downstreamStatus` and
`downstreamBody` are what the downstream chain writes. -/
structure ReqEnv where
  ctxVal : Option CtxVal
  freshUuid : String
  slotAvailableFirst : Bool
  downstreamPanics : Bool
  downstreamStatus : Nat
  downstreamBody : String
  deriving Repr, DecidableEq

/-- How one handler invocation ends. -/
inductive Outcome where
  /-- `c.AbortWithStatus(http.StatusInternalServerError)` at line 67. -/
  | aborted500
  /-- The capacity-rejection branch completed (lines 93-95). -/
  | rejected
  /-- The context-expired arm of the `select` completed (lines 102-108). -/
  | timedOut
  /-- `c.Next()` ran and returned; its status is carried. -/
  | completed (status : Nat)
  /-- A panic propagated out of the handler (all deferred releases ran). -/
  | panicked
  deriving Repr, DecidableEq

/-- Observable result of one handler invocation: the shared state after
all deferred updates ran, the outcome, and what was written to the
response. -/
structure RLResult where
  st : RLState
  outcome : Outcome
  /-- Status written for this request, `none` when the handler panicked
  before any status write. -/
  status : Option Nat
  /-- Value of the `Retry-After` response header, when set. -/
  retryAfter : Option String
  /-- Body written by the downstream chain, when it ran to completion. -/
  body : Option String
  /-- `X-Request-ID` response-header write done by the fallback path of
  `GetRequestIDFromCtx`, when any. -/
  reqIDHeader : Option String
  /-- Identifier the request logger was built with (line 70). -/
  usedUuid : String
  /-- Whether the "fallback uuid used" warning was logged (lines 74-81). -/
  fallbackWarned : Bool
  deriving Repr, DecidableEq

/-- Embedding of `runReqWithSync` (lines 129-149), entered after the
send on `rm.limiter` succeeded inside the `select` (line 100), so the
channel occupancy has grown by one.  The body increments `running`
(line 130) and registers two defers: line 131 `rm.running.Add(-1)` and
line 132 the channel receive; Go runs defers in LIFO order, so on every
exit the channel token is released first and `running` is decremented
after.  When `c.Next()` panics the panic propagates, the same two
defers run, and the deferred `rm.total.Add(-1)` of the caller (line 41)
runs as well.  The returned state carries the net effect on every exit
path. -/
def runReqWithSync (s : RLState) (env : ReqEnv) (hdr : Option String)
    (uuid : String) (warned : Bool) : RLResult :=
  let limiter1 := s.limiter + 1
  let running1 := s.running + 1
  if env.downstreamPanics then
    { st := { s with limiter := limiter1 - 1, running := running1 - 1 }
      outcome := Outcome.panicked, status := none, retryAfter := none
      body := none, reqIDHeader := hdr, usedUuid := uuid
      fallbackWarned := warned }
  else
    { st := { s with limiter := limiter1 - 1, running := running1 - 1 }
      outcome := Outcome.completed env.downstreamStatus
      status := some env.downstreamStatus, retryAfter := none
      body := some env.downstreamBody, reqIDHeader := hdr
      usedUuid := uuid, fallbackWarned := warned }

/-- Embedding of `GetRateLimiter`s handler (lines 39-110), one request
run under the sequential semantics described above; `alloc` is the heap
allocation counter on entry.  Control flow, in source order:
line 40 `rm.total.Add(1)` with line 41 deferring the matching decrement
on every exit path; line 60 the request-identifier lookup; line 61 the
`errors.Is` test against a freshly allocated `&ErrTypeCastFailed{}`
(aborting with 500 when it matches); lines 74-81 the fallback warning;
line 83 the capacity check `rm.total.Load() >= int32(rm.maxWait)`, whose
branch increments `rejected` (line 84) and then evaluates `err.Error()`
(line 87) — a panic when `err` is `nil` — before writing the
`Retry-After` header and the 429 status (lines 93-94); finally the
`select` (lines 99-109) racing the semaphore send against context
expiry. -/
def rateLimitHandle (cfg : RLConfig) (s : RLState) (env : ReqEnv)
    (alloc : Nat) : RLResult :=
  let res := GetRequestIDFromCtx env.ctxVal env.freshUuid alloc
  let target : GoError := ⟨res.alloc, ErrKind.typeCastFailed, ""⟩
  if (match res.err with
      | some e => errorsIs e target
      | none => false) then
    { st := s, outcome := Outcome.aborted500, status := some 500
      retryAfter := none, body := none, reqIDHeader := res.headerWrite
      usedUuid := res.requestID, fallbackWarned := false }
  else
    let warned := res.err.isSome
    if s.total + 1 ≥ cfg.maxWait then
      let rejected1 := s.rejected + 1
      match errError res.err with
      | none =>
          { st := { s with rejected := rejected1 }
            outcome := Outcome.panicked, status := none
            retryAfter := none, body := none
            reqIDHeader := res.headerWrite, usedUuid := res.requestID
            fallbackWarned := warned }
      | some _ =>
          { st := { s with rejected := rejected1 }
            outcome := Outcome.rejected, status := some 429
            retryAfter := some (toString cfg.retryAfter), body := none
            reqIDHeader := res.headerWrite, usedUuid := res.requestID
            fallbackWarned := warned }
    else
      if env.slotAvailableFirst ∧ s.limiter < cfg.maxRunning.toNat then
        runReqWithSync s env res.headerWrite res.requestID warned
      else
        { st := { s with timedOut := s.timedOut + 1 }
          outcome := Outcome.timedOut, status := some 429
          retryAfter := some (toString cfg.retryAfter), body := none
          reqIDHeader := res.headerWrite, usedUuid := res.requestID
          fallbackWarned := warned }

/-- Modelled from the spec: the recovery layer of the router factory
(`pkg/gin/factory`, referenced from `pkg/gin/http.go` but not present
under src/) that wraps the whole handler chain.  Per the spec, a panic
inside the downstream chain "is caught, converted into a failed
Completed outcome (5xx-equivalent)" instead of propagating unhandled. -/
def recoverWrap (r : RLResult) : RLResult :=
  match r.outcome with
  | Outcome.panicked =>
      { r with outcome := Outcome.completed 500, status := some 500 }
  | _ => r

/-! ## Interleaved semantics of concurrent handler invocations

Each touch of the shared `RateLimiter` state in the handler is one
atomic operation (an atomic counter add, a buffered-channel send, or a
buffered-channel receive).  A system of `n` concurrent invocations is a
program counter per invocation plus the shared state; a step is one
invocation executing its next atomic operation.  The program points and
transitions follow the source line by line; in particular the two defers
of `runReqWithSync` run in LIFO order, so the channel receive (line 132)
executes before the `running` decrement (line 131). -/

/-- Program points of one handler invocation, between the atomic
operations on the shared state. -/
inductive Pc where
  /-- Before line 40. -/
  | idle
  /-- After `rm.total.Add(1)` (line 40). -/
  | entered
  /-- Inside the `select` (line 99), waiting. -/
  | queued
  /-- The send on `rm.limiter` succeeded (line 100). -/
  | holding
  /-- After `rm.running.Add(1)` (line 130), inside `c.Next()`. -/
  | runBody
  /-- `c.Next()` returned (line 136). -/
  | workDone
  /-- The deferred channel receive ran (line 132). -/
  | released
  /-- The deferred `rm.running.Add(-1)` ran (line 131). -/
  | slotFreed
  /-- On an exit path that never touched the slot pool (rejection or
  context expiry), before the deferred `rm.total.Add(-1)`. -/
  | noSlotExit
  /-- The deferred `rm.total.Add(-1)` ran (line 41). -/
  | done
  deriving Repr, DecidableEq

/-- A system of `n` concurrent handler invocations over one shared
`RateLimiter`. -/
structure Sys (n : Nat) where
  pc : Fin n → Pc
  sh : RLState

/-- One atomic step of one invocation.  Guards come from the source:
the capacity check at line 83 reads the current value of `rm.total`
(which already includes the increment done by the stepping invocation),
and a
send on a buffered channel can only complete while the buffer is below
its capacity `maxRunning` (line 32). -/
inductive Step (cfg : RLConfig) {n : Nat} : Sys n → Sys n → Prop where
  /-- Line 40: `rm.total.Add(1)`. -/
  | enter (s : Sys n) (i : Fin n) (h : s.pc i = Pc.idle) :
      Step cfg s ⟨Function.update s.pc i Pc.entered,
        { s.sh with total := s.sh.total + 1 }⟩
  /-- Lines 83-84: the capacity check fires and `rm.rejected.Add(1)`
  runs.  The further writes of the branch touch no shared state. -/
  | reject (s : Sys n) (i : Fin n) (h : s.pc i = Pc.entered)
      (hg : s.sh.total ≥ cfg.maxWait) :
      Step cfg s ⟨Function.update s.pc i Pc.noSlotExit,
        { s.sh with rejected := s.sh.rejected + 1 }⟩
  /-- Line 83 check passes; the invocation enters the `select`. -/
  | queue (s : Sys n) (i : Fin n) (h : s.pc i = Pc.entered)
      (hg : s.sh.total < cfg.maxWait) :
      Step cfg s ⟨Function.update s.pc i Pc.queued, s.sh⟩
  /-- Line 100: the send on the buffered channel completes. -/
  | acquire (s : Sys n) (i : Fin n) (h : s.pc i = Pc.queued)
      (hg : s.sh.limiter < cfg.maxRunning.toNat) :
      Step cfg s ⟨Function.update s.pc i Pc.holding,
        { s.sh with limiter := s.sh.limiter + 1 }⟩
  /-- Lines 102-104: the request context expired first;
  `rm.timedOut.Add(1)` runs. -/
  | ctxExpired (s : Sys n) (i : Fin n) (h : s.pc i = Pc.queued) :
      Step cfg s ⟨Function.update s.pc i Pc.noSlotExit,
        { s.sh with timedOut := s.sh.timedOut + 1 }⟩
  /-- Line 130: `rm.running.Add(1)`. -/
  | runInc (s : Sys n) (i : Fin n) (h : s.pc i = Pc.holding) :
      Step cfg s ⟨Function.update s.pc i Pc.runBody,
        { s.sh with running := s.sh.running + 1 }⟩
  /-- Line 136: `c.Next()` returns normally. -/
  | nextReturns (s : Sys n) (i : Fin n) (h : s.pc i = Pc.runBody) :
      Step cfg s ⟨Function.update s.pc i Pc.workDone, s.sh⟩
  /-- Line 132 defer (runs first, LIFO): the channel receive frees the
  slot. -/
  | releaseSlot (s : Sys n) (i : Fin n) (h : s.pc i = Pc.workDone) :
      Step cfg s ⟨Function.update s.pc i Pc.released,
        { s.sh with limiter := s.sh.limiter - 1 }⟩
  /-- Line 136 panics inside `c.Next()`: the deferred channel receive
  (line 132) still runs first while the panic unwinds. -/
  | releaseSlotPanic (s : Sys n) (i : Fin n) (h : s.pc i = Pc.runBody) :
      Step cfg s ⟨Function.update s.pc i Pc.released,
        { s.sh with limiter := s.sh.limiter - 1 }⟩
  /-- Line 131 defer: `rm.running.Add(-1)`. -/
  | runDec (s : Sys n) (i : Fin n) (h : s.pc i = Pc.released) :
      Step cfg s ⟨Function.update s.pc i Pc.slotFreed,
        { s.sh with running := s.sh.running - 1 }⟩
  /-- Line 41 defer after a slot was held: `rm.total.Add(-1)`. -/
  | exitSlot (s : Sys n) (i : Fin n) (h : s.pc i = Pc.slotFreed) :
      Step cfg s ⟨Function.update s.pc i Pc.done,
        { s.sh with total := s.sh.total - 1 }⟩
  /-- Line 41 defer on a slot-free exit path: `rm.total.Add(-1)`. -/
  | exitNoSlot (s : Sys n) (i : Fin n) (h : s.pc i = Pc.noSlotExit) :
      Step cfg s ⟨Function.update s.pc i Pc.done,
        { s.sh with total := s.sh.total - 1 }⟩

/-- The system right after `NewRateLimiter`: nobody has entered and the
shared state is the zero state. -/
def Sys.init (n : Nat) : Sys n := ⟨fun _ => Pc.idle, RLState.init⟩

/-- States an `n`-invocation system can reach from the initial state. -/
def Reachable (cfg : RLConfig) {n : Nat} (s : Sys n) : Prop :=
  Relation.ReflTransGen (Step cfg) (Sys.init n) s

/-! ## Helper lemmas -/

/-- The `errors.Is` test at line 61 compares the error returned by
`GetRequestIDFromCtx` against a `&ErrTypeCastFailed{}` allocated after
it; the two allocations are distinct, so the test is always false and
the 500-abort branch at lines 62-68 is unreachable. -/
theorem abortCheck_false (ctxVal : Option CtxVal) (fresh : String)
    (alloc : Nat) :
    (match (GetRequestIDFromCtx ctxVal fresh alloc).err with
      | some e => errorsIs e
          ⟨(GetRequestIDFromCtx ctxVal fresh alloc).alloc,
            ErrKind.typeCastFailed, ""⟩
      | none => false) = false := by
  cases ctxVal with
  | none => simp [GetRequestIDFromCtx, errorsIs]
  | some v => cases v <;> simp [GetRequestIDFromCtx, errorsIs]

/-- Claim C7 (code bug witness): at the failing input
`NewRateLimiter(0, 5, 5, lg)` the first argument is correctly replaced
by the default 100 and the in-range arguments are kept, but the single
warning logged carries the value 100 — the already-substituted default —
under its "supplied limit" key, not the originally supplied 0: the
reassignment at line 153 happens before the `lg.Warn` call at line 154
reads the variable. -/
theorem normalizeParams_warn_logs_default_not_supplied :
    (NewRateLimiter 0 5 5).cfg = ⟨100, 5, 5⟩ ∧
    (NewRateLimiter 0 5 5).warnings =
      [⟨"invalid max connection limit: limit was reset to default",
        100, 100⟩] ∧
    ((NewRateLimiter 0 5 5).warnings.map Warning.supplied ≠ [(0 : Int)]) := by
  refine ⟨rfl, rfl, ?_⟩
  decide

/-- Claim C2: every handler invocation, on every exit path — abort,
rejection (with or without the nil-error panic), timeout, completed
downstream run, or downstream panic — leaves the in-flight counter
`total` exactly as it found it: the increment at line 40 is undone by
exactly one deferred decrement at line 41. -/
theorem rateLimitHandle_preserves_total (cfg : RLConfig) (s : RLState)
    (env : ReqEnv) (alloc : Nat) :
    (rateLimitHandle cfg s env alloc).st.total = s.total := by
  simp only [rateLimitHandle, runReqWithSync]
  repeat' split
  all_goals rfl

/-- Claim C5: whenever a handler invocation ends in `Rejected` (lines
93-94) or `TimedOut` (lines 107-108) it writes status 429 and sets the
`Retry-After` header to the configured retry hint rendered as a decimal
integer string (`strconv.Itoa`); whenever it ends in `Completed` the
status and body are exactly what the downstream chain produced and the
`Retry-After` header is not set. -/
theorem rateLimitHandle_status_by_outcome (cfg : RLConfig) (s : RLState)
    (env : ReqEnv) (alloc : Nat) :
    ((rateLimitHandle cfg s env alloc).outcome = Outcome.rejected →
      (rateLimitHandle cfg s env alloc).status = some 429 ∧
      (rateLimitHandle cfg s env alloc).retryAfter =
        some (toString cfg.retryAfter)) ∧
    ((rateLimitHandle cfg s env alloc).outcome = Outcome.timedOut →
      (rateLimitHandle cfg s env alloc).status = some 429 ∧
      (rateLimitHandle cfg s env alloc).retryAfter =
        some (toString cfg.retryAfter)) ∧
    (∀ code : Nat,
      (rateLimitHandle cfg s env alloc).outcome = Outcome.completed code →
      (rateLimitHandle cfg s env alloc).status = some code ∧
      (rateLimitHandle cfg s env alloc).body = some env.downstreamBody ∧
      (rateLimitHandle cfg s env alloc).retryAfter = none) := by
  simp only [rateLimitHandle, runReqWithSync]
  repeat' split
  all_goals simp

/-- Concrete instance of the claim C5 theorem: a rejected request
(in-flight total 5 against `maxWait` 2, identifier fallback in effect)
receives status 429 with `Retry-After: 7`. -/
theorem rateLimitHandle_status_by_outcome_witness :
    (rateLimitHandle ⟨1, 2, 7⟩ ⟨0, 5, 0, 0, 0⟩
      ⟨none, "u", false, false, 200, "ok"⟩ 0).status = some 429 ∧
    (rateLimitHandle ⟨1, 2, 7⟩ ⟨0, 5, 0, 0, 0⟩
      ⟨none, "u", false, false, 200, "ok"⟩ 0).retryAfter = some "7" := by
  have h := (rateLimitHandle_status_by_outcome ⟨1, 2, 7⟩ ⟨0, 5, 0, 0, 0⟩
    ⟨none, "u", false, false, 200, "ok"⟩ 0).1 (by decide)
  exact ⟨h.1, by rw [h.2]; rfl⟩

/-- Claim C6: a request that passes the capacity check and whose
context expires before the semaphore send completes takes the
context-expired arm of the `select` (lines 102-108): it ends `TimedOut`
with status 429 and the `Retry-After` header, the timed-out counter
grows by exactly one, the rejected counter is unchanged, and neither
the running counter nor the semaphore occupancy is touched. -/
theorem rateLimitHandle_timeout_path (cfg : RLConfig) (s : RLState)
    (env : ReqEnv) (alloc : Nat)
    (hcap : ¬ s.total + 1 ≥ cfg.maxWait)
    (hrace : ¬(env.slotAvailableFirst = true ∧
      s.limiter < cfg.maxRunning.toNat)) :
    (rateLimitHandle cfg s env alloc).outcome = Outcome.timedOut ∧
    (rateLimitHandle cfg s env alloc).status = some 429 ∧
    (rateLimitHandle cfg s env alloc).retryAfter =
      some (toString cfg.retryAfter) ∧
    (rateLimitHandle cfg s env alloc).st.timedOut = s.timedOut + 1 ∧
    (rateLimitHandle cfg s env alloc).st.rejected = s.rejected ∧
    (rateLimitHandle cfg s env alloc).st.running = s.running ∧
    (rateLimitHandle cfg s env alloc).st.limiter = s.limiter ∧
    (rateLimitHandle cfg s env alloc).st.total = s.total := by
  simp only [rateLimitHandle, abortCheck_false, Bool.false_eq_true,
    if_false]
  rw [if_neg hcap, if_neg hrace]
  simp

/-- Concrete instance of the claim C6 theorem: `maxRunning=1`,
`maxWait=5`, the slot holder occupies the semaphore and the waiting
request expires: `TimedOut`, 429, timed-out counter 1, rejected
counter still 0. -/
theorem rateLimitHandle_timeout_path_witness :
    (rateLimitHandle ⟨1, 5, 3⟩ ⟨1, 1, 0, 0, 1⟩
      ⟨none, "u", false, false, 200, "ok"⟩ 0).outcome =
        Outcome.timedOut ∧
    (rateLimitHandle ⟨1, 5, 3⟩ ⟨1, 1, 0, 0, 1⟩
      ⟨none, "u", false, false, 200, "ok"⟩ 0).st.timedOut = 1 ∧
    (rateLimitHandle ⟨1, 5, 3⟩ ⟨1, 1, 0, 0, 1⟩
      ⟨none, "u", false, false, 200, "ok"⟩ 0).st.rejected = 0 := by
  have h := rateLimitHandle_timeout_path ⟨1, 5, 3⟩ ⟨1, 1, 0, 0, 1⟩
    ⟨none, "u", false, false, 200, "ok"⟩ 0 (by decide) (by decide)
  exact ⟨h.1, by rw [h.2.2.2.1]; decide, by rw [h.2.2.2.2.1]⟩

/-- Claim C10: when the request-identifier lookup succeeded (a string
was in the context, so `err` is `nil`) and the capacity check at line
83 fires, the branch evaluates `err.Error()` at line 87 on the `nil`
error and panics before the `Retry-After` header or the 429 status is
written (the rejected counter having already been incremented at line
84); only when the lookup returned a non-`nil` error (here: the
missing-identifier fallback) does the branch complete the 429
response. -/
theorem rejectBranch_nil_error_panics (cfg : RLConfig) (s : RLState)
    (env : ReqEnv) (alloc : Nat) (u : String)
    (hctx : env.ctxVal = some (CtxVal.str u))
    (hcap : s.total + 1 ≥ cfg.maxWait) :
    (rateLimitHandle cfg s env alloc).outcome = Outcome.panicked ∧
    (rateLimitHandle cfg s env alloc).status = none ∧
    (rateLimitHandle cfg s env alloc).retryAfter = none ∧
    (rateLimitHandle cfg s env alloc).st.rejected = s.rejected + 1 ∧
    (∀ env2 : ReqEnv, env2.ctxVal = none →
      (rateLimitHandle cfg s env2 alloc).outcome = Outcome.rejected ∧
      (rateLimitHandle cfg s env2 alloc).status = some 429) := by
  constructor
  · simp [rateLimitHandle, hctx, GetRequestIDFromCtx, errorsIs,
      errError, if_pos hcap]
  constructor
  · simp [rateLimitHandle, hctx, GetRequestIDFromCtx, errorsIs,
      errError, if_pos hcap]
  constructor
  · simp [rateLimitHandle, hctx, GetRequestIDFromCtx, errorsIs,
      errError, if_pos hcap]
  constructor
  · simp [rateLimitHandle, hctx, GetRequestIDFromCtx, errorsIs,
      errError, if_pos hcap]
  · intro env2 hctx2
    constructor <;>
      simp [rateLimitHandle, hctx2, GetRequestIDFromCtx, errorsIs,
        errError, if_pos hcap]

/-- Concrete instance of the claim C10 theorem: with a valid
identifier in the context and the capacity check firing, the handler
panics with no status written, while the identical request with a
missing identifier receives the 429. -/
theorem rejectBranch_nil_error_panics_witness :
    (rateLimitHandle ⟨1, 2, 7⟩ ⟨0, 5, 0, 0, 0⟩
      ⟨some (CtxVal.str "id"), "u", false, false, 200, "ok"⟩ 0).outcome =
        Outcome.panicked ∧
    (rateLimitHandle ⟨1, 2, 7⟩ ⟨0, 5, 0, 0, 0⟩
      ⟨some (CtxVal.str "id"), "u", false, false, 200, "ok"⟩ 0).status =
        none := by
  have h := rejectBranch_nil_error_panics ⟨1, 2, 7⟩ ⟨0, 5, 0, 0, 0⟩
    ⟨some (CtxVal.str "id"), "u", false, false, 200, "ok"⟩ 0 "id"
    rfl (by decide)
  exact ⟨h.1, h.2.1⟩

/-- Claim C1 counterexample: with `maxRunning=1, maxInFlight=2`, while
request A holds the slot (total 1, semaphore occupancy 1), request B
brings the in-flight count to exactly 2 — which does NOT exceed
`maxInFlight` — yet the capacity check `total >= maxWait` at line 83
fires and B is rejected (rejected counter incremented, outcome
Rejected), instead of being admitted into the wait state as the claim
asserts. -/
theorem admit_at_exactly_maxInFlight_is_rejected :
    ((rateLimitHandle (NewRateLimiter 1 2 7).cfg ⟨1, 1, 0, 0, 1⟩
        ⟨none, "b", true, false, 200, "ok"⟩ 0).outcome =
      Outcome.rejected) ∧
    ((rateLimitHandle (NewRateLimiter 1 2 7).cfg ⟨1, 1, 0, 0, 1⟩
        ⟨none, "b", true, false, 200, "ok"⟩ 0).st.rejected = 1) ∧
    ((1 : Int) + 1 = (NewRateLimiter 1 2 7).cfg.maxWait) ∧
    ¬ ((1 : Int) + 1 > (NewRateLimiter 1 2 7).cfg.maxWait) := by
  decide

/-- Claim C1 (amended): the reject branch is taken — the rejected
counter grows by one — exactly when the in-flight count including the
increment done by the request itself is greater than or EQUAL to
`maxWait`, and on
that branch the running-slot pool is never touched.  (So with
`maxRunning=1, maxInFlight=2`, a request that brings the count to 2 is
already rejected, as is any later one.) -/
theorem rejectBranch_iff_total_ge_maxWait (cfg : RLConfig) (s : RLState)
    (env : ReqEnv) (alloc : Nat) :
    ((rateLimitHandle cfg s env alloc).st.rejected = s.rejected + 1 ↔
      s.total + 1 ≥ cfg.maxWait) ∧
    (s.total + 1 ≥ cfg.maxWait →
      (rateLimitHandle cfg s env alloc).st.limiter = s.limiter ∧
      (rateLimitHandle cfg s env alloc).st.running = s.running ∧
      (rateLimitHandle cfg s env alloc).st.timedOut = s.timedOut) := by
  simp only [rateLimitHandle, runReqWithSync, abortCheck_false,
    Bool.false_eq_true, if_false]
  split
  · rename_i h
    split <;> simp [h]
  · rename_i h
    split
    · split <;>
        (refine ⟨⟨fun hr => ?_, fun hc => absurd hc h⟩,
          fun hc => absurd hc h⟩; simp at hr)
    · refine ⟨⟨fun hr => ?_, fun hc => absurd hc h⟩,
        fun hc => absurd hc h⟩
      simp at hr

/-- Concrete instance of the amended claim C1 theorem: request B of
the scenario (count reaches 2 = `maxWait`) takes the reject branch
without touching the slot pool. -/
theorem rejectBranch_iff_total_ge_maxWait_witness :
    ((rateLimitHandle ⟨1, 2, 7⟩ ⟨1, 1, 0, 0, 1⟩
        ⟨none, "b", true, false, 200, "ok"⟩ 0).st.rejected = 0 + 1 ↔
      (1 : Int) + 1 ≥ 2) ∧
    ((rateLimitHandle ⟨1, 2, 7⟩ ⟨1, 1, 0, 0, 1⟩
        ⟨none, "b", true, false, 200, "ok"⟩ 0).st.limiter = 1 ∧
      (rateLimitHandle ⟨1, 2, 7⟩ ⟨1, 1, 0, 0, 1⟩
        ⟨none, "b", true, false, 200, "ok"⟩ 0).st.running = 1 ∧
      (rateLimitHandle ⟨1, 2, 7⟩ ⟨1, 1, 0, 0, 1⟩
        ⟨none, "b", true, false, 200, "ok"⟩ 0).st.timedOut = 0) := by
  have h := rejectBranch_iff_total_ge_maxWait ⟨1, 2, 7⟩ ⟨1, 1, 0, 0, 1⟩
    ⟨none, "b", true, false, 200, "ok"⟩ 0
  exact ⟨h.1, h.2 (by decide)⟩

/-- Claim C4: when the downstream chain panics inside an acquired
slot, the deferred receives and decrements of `runReqWithSync` (lines
131-132) and the deferred `total` decrement (line 41) all run while the
panic unwinds, so the semaphore occupancy, the running counter and the
in-flight counter are all restored; the recovery layer (spec-modelled,
see `recoverWrap`) then converts the panic into a failed Completed
outcome with a 5xx status instead of letting it propagate unhandled. -/
theorem downstreamPanic_contained (cfg : RLConfig) (s : RLState)
    (env : ReqEnv) (alloc : Nat)
    (hpanic : env.downstreamPanics = true)
    (hcap : ¬ s.total + 1 ≥ cfg.maxWait)
    (hslot : env.slotAvailableFirst = true ∧
      s.limiter < cfg.maxRunning.toNat) :
    (rateLimitHandle cfg s env alloc).outcome = Outcome.panicked ∧
    (recoverWrap (rateLimitHandle cfg s env alloc)).outcome =
      Outcome.completed 500 ∧
    (recoverWrap (rateLimitHandle cfg s env alloc)).status = some 500 ∧
    (recoverWrap (rateLimitHandle cfg s env alloc)).st.limiter =
      s.limiter ∧
    (recoverWrap (rateLimitHandle cfg s env alloc)).st.running =
      s.running ∧
    (recoverWrap (rateLimitHandle cfg s env alloc)).st.total = s.total := by
  have hh : rateLimitHandle cfg s env alloc =
      runReqWithSync s env
        (GetRequestIDFromCtx env.ctxVal env.freshUuid alloc).headerWrite
        (GetRequestIDFromCtx env.ctxVal env.freshUuid alloc).requestID
        (GetRequestIDFromCtx env.ctxVal env.freshUuid alloc).err.isSome := by
    simp only [rateLimitHandle, abortCheck_false, Bool.false_eq_true,
      if_false]
    rw [if_neg hcap, if_pos hslot]
  rw [hh]
  simp [runReqWithSync, hpanic, recoverWrap]

/-- Concrete instance of the claim C4 theorem: a panicking handler
chain under `maxRunning=1, maxWait=100` leaves all three shared
counters as they were and surfaces as a completed 500. -/
theorem downstreamPanic_contained_witness :
    (recoverWrap (rateLimitHandle ⟨1, 100, 1⟩ RLState.init
        ⟨none, "u", true, true, 200, "ok"⟩ 0)).outcome =
      Outcome.completed 500 ∧
    (recoverWrap (rateLimitHandle ⟨1, 100, 1⟩ RLState.init
        ⟨none, "u", true, true, 200, "ok"⟩ 0)).st.limiter = 0 ∧
    (recoverWrap (rateLimitHandle ⟨1, 100, 1⟩ RLState.init
        ⟨none, "u", true, true, 200, "ok"⟩ 0)).st.running = 0 := by
  have h := downstreamPanic_contained ⟨1, 100, 1⟩ RLState.init
    ⟨none, "u", true, true, 200, "ok"⟩ 0 rfl (by decide) (by decide)
  exact ⟨h.2.1, h.2.2.2.1, h.2.2.2.2.1⟩

/-- Claim C9 counterexample: with a non-string value under the
identifier key, the handler does NOT abort — `errors.Is` against a
freshly allocated `&ErrTypeCastFailed{}` never matches — and it
proceeds with the EMPTY identifier returned by `GetRequestIDFromCtx`
(no fresh identifier is generated on the type-mismatch path), logging
the same fallback warning as for a missing identifier. -/
theorem typeCastError_not_aborted_and_empty_uuid :
    ((rateLimitHandle ⟨1, 100, 1⟩ RLState.init
        ⟨some (CtxVal.nonStr "12345"), "fresh-uuid", true, false, 200,
          "ok"⟩ 0).outcome = Outcome.completed 200) ∧
    ((rateLimitHandle ⟨1, 100, 1⟩ RLState.init
        ⟨some (CtxVal.nonStr "12345"), "fresh-uuid", true, false, 200,
          "ok"⟩ 0).outcome ≠ Outcome.aborted500) ∧
    ((rateLimitHandle ⟨1, 100, 1⟩ RLState.init
        ⟨some (CtxVal.nonStr "12345"), "fresh-uuid", true, false, 200,
          "ok"⟩ 0).usedUuid = "") ∧
    ((rateLimitHandle ⟨1, 100, 1⟩ RLState.init
        ⟨some (CtxVal.nonStr "12345"), "fresh-uuid", true, false, 200,
          "ok"⟩ 0).usedUuid ≠ "fresh-uuid") ∧
    ((rateLimitHandle ⟨1, 100, 1⟩ RLState.init
        ⟨some (CtxVal.nonStr "12345"), "fresh-uuid", true, false, 200,
          "ok"⟩ 0).fallbackWarned = true) ∧
    ((GetRequestIDFromCtx (some (CtxVal.nonStr "12345")) "fresh-uuid"
        0).err.map GoError.kind = some ErrKind.typeCastFailed) := by
  decide

/-- Claim C9 (amended): a non-string value under the identifier key
does surface a typed recoverable error (`ErrTypeCastFailed`, distinct
from the missing-identifier `ErrFallbackUuidUsed`), but it carries the
EMPTY identifier, and the admission middleware cannot distinguish it in
effect: its `errors.Is` abort test never matches, so it never aborts
and proceeds with the empty identifier while logging the fallback
warning. -/
theorem typeCastFailed_distinct_but_not_distinguished (rep fresh : String)
    (alloc : Nat) (cfg : RLConfig) (s : RLState) (env : ReqEnv)
    (henv : env.ctxVal = some (CtxVal.nonStr rep)) :
    ((GetRequestIDFromCtx (some (CtxVal.nonStr rep)) fresh
        alloc).err.map GoError.kind = some ErrKind.typeCastFailed) ∧
    (ErrKind.typeCastFailed ≠ ErrKind.fallbackUuidUsed) ∧
    ((GetRequestIDFromCtx (some (CtxVal.nonStr rep)) fresh
        alloc).requestID = "") ∧
    ((GetRequestIDFromCtx (some (CtxVal.nonStr rep)) fresh
        alloc).headerWrite = none) ∧
    ((rateLimitHandle cfg s env alloc).outcome ≠ Outcome.aborted500) ∧
    ((rateLimitHandle cfg s env alloc).usedUuid = "") ∧
    ((rateLimitHandle cfg s env alloc).fallbackWarned = true) := by
  refine ⟨by simp [GetRequestIDFromCtx], by decide,
    by simp [GetRequestIDFromCtx], by simp [GetRequestIDFromCtx],
    ?_, ?_, ?_⟩ <;>
  · simp only [rateLimitHandle, abortCheck_false, Bool.false_eq_true,
      if_false, runReqWithSync, henv]
    repeat' split
    all_goals simp [GetRequestIDFromCtx, errError]

/-- Concrete instance of the amended claim C9 theorem. -/
theorem typeCastFailed_distinct_but_not_distinguished_witness :
    ((GetRequestIDFromCtx (some (CtxVal.nonStr "12345")) "f" 0).err.map
        GoError.kind = some ErrKind.typeCastFailed) ∧
    ((rateLimitHandle ⟨1, 100, 1⟩ RLState.init
        ⟨some (CtxVal.nonStr "12345"), "f", true, false, 200, "ok"⟩
        0).outcome ≠ Outcome.aborted500) := by
  have h := typeCastFailed_distinct_but_not_distinguished "12345" "f" 0
    ⟨1, 100, 1⟩ RLState.init
    ⟨some (CtxVal.nonStr "12345"), "f", true, false, 200, "ok"⟩ rfl
  exact ⟨h.1, h.2.2.2.2.1⟩

/-- Claim C3 counterexample: the running counter CAN exceed
`maxRunning`.  With `maxRunning = 1` and two concurrent invocations,
interleave: invocation 0 acquires the slot, runs, and executes its
deferred channel receive (line 132, which by LIFO defer order runs
BEFORE the `running` decrement of line 131); invocation 1 then acquires
the freed slot and increments `running` while invocation 0 has not yet
decremented it — at that instant `running = 2 > maxRunning = 1`. -/
theorem runningCounter_transiently_exceeds_maxRunning :
    ¬ (∀ s : Sys 2, Reachable (NewRateLimiter 1 100 1).cfg s →
        s.sh.running ≤ (NewRateLimiter 1 100 1).cfg.maxRunning) := by
  intro hall
  have r0 : Reachable (NewRateLimiter 1 100 1).cfg (Sys.init 2) :=
    Relation.ReflTransGen.refl
  have r1 := Relation.ReflTransGen.tail r0
    (Step.enter (Sys.init 2) 0 rfl)
  have r2 := Relation.ReflTransGen.tail r1
    (Step.queue _ 0 (by decide) (by decide))
  have r3 := Relation.ReflTransGen.tail r2
    (Step.acquire _ 0 (by decide) (by decide))
  have r4 := Relation.ReflTransGen.tail r3
    (Step.runInc _ 0 (by decide))
  have r5 := Relation.ReflTransGen.tail r4
    (Step.nextReturns _ 0 (by decide))
  have r6 := Relation.ReflTransGen.tail r5
    (Step.releaseSlot _ 0 (by decide))
  have r7 := Relation.ReflTransGen.tail r6
    (Step.enter _ 1 (by decide))
  have r8 := Relation.ReflTransGen.tail r7
    (Step.queue _ 1 (by decide) (by decide))
  have r9 := Relation.ReflTransGen.tail r8
    (Step.acquire _ 1 (by decide) (by decide))
  have r10 := Relation.ReflTransGen.tail r9
    (Step.runInc _ 1 (by decide))
  have hb := hall _ r10
  exact absurd hb (by decide)

/-- Claim C3 (amended): the semaphore occupancy — the number of
invocations holding a running slot, i.e. between a successful send on
`rm.limiter` and the deferred receive — never exceeds the channel
capacity `maxRunning`, in every reachable interleaving of any number of
concurrent invocations.  (The `running` counter itself is incremented
only after the send succeeds, but because the deferred receive of line
132 runs before the deferred decrement of line 131, the counter can
transiently exceed `maxRunning` by the number of invocations currently
between those two defers.) -/
theorem semaphore_occupancy_bounded (cfg : RLConfig) {n : Nat}
    (s : Sys n) (h : Reachable cfg s) :
    s.sh.limiter ≤ cfg.maxRunning.toNat := by
  induction h with
  | refl => exact Nat.zero_le _
  | tail hr hstep ih => cases hstep <;> simp_all <;> omega

/-- Concrete instance of the amended claim C3 theorem, at the initial
state of a three-invocation system. -/
theorem semaphore_occupancy_bounded_witness :
    (Sys.init 3).sh.limiter ≤ (NewRateLimiter 2 5 1).cfg.maxRunning.toNat :=
  semaphore_occupancy_bounded (NewRateLimiter 2 5 1).cfg (Sys.init 3)
    Relation.ReflTransGen.refl

/-! ## UUID lemmas (all bounded facts settled by exhaustive kernel
evaluation over the byte range) -/

/-- The high hex digit of the version byte is always `4`. -/
theorem hexDigit_version_div :
    ∀ x : Fin 256, hexDigit (setVersion4 (x : Nat) / 16) = '4' := by decide

/-- The high hex digit of the variant byte is one of `8`, `9`, `a`,
`b`. -/
theorem hexDigit_variant_div :
    ∀ x : Fin 256,
      (hexDigit (setVariantRFC4122 (x : Nat) / 16) == '8' ||
       hexDigit (setVariantRFC4122 (x : Nat) / 16) == '9' ||
       hexDigit (setVariantRFC4122 (x : Nat) / 16) == 'a' ||
       hexDigit (setVariantRFC4122 (x : Nat) / 16) == 'b') = true := by
  decide

/-- High digit of any byte is a hex character. -/
theorem isHexChar_div :
    ∀ x : Fin 256, isHexChar (hexDigit ((x : Nat) / 16)) = true := by
  decide

/-- Low digit of any byte is a hex character. -/
theorem isHexChar_mod :
    ∀ x : Fin 256, isHexChar (hexDigit ((x : Nat) % 16)) = true := by
  decide

/-- Low digit of the version byte is a hex character. -/
theorem isHexChar_version_mod :
    ∀ x : Fin 256,
      isHexChar (hexDigit (setVersion4 (x : Nat) % 16)) = true := by
  decide

/-- Low digit of the variant byte is a hex character. -/
theorem isHexChar_variant_mod :
    ∀ x : Fin 256,
      isHexChar (hexDigit (setVariantRFC4122 (x : Nat) % 16)) = true := by
  decide

/-- The version byte stays a byte. -/
theorem setVersion4_lt :
    ∀ x : Fin 256, setVersion4 (x : Nat) < 256 := by decide

/-- The variant byte stays a byte. -/
theorem setVariantRFC4122_lt :
    ∀ x : Fin 256, setVariantRFC4122 (x : Nat) < 256 := by decide

/-- `hexDigit` is injective on digit values. -/
theorem hexDigit_inj_fin :
    ∀ u v : Fin 16, hexDigit (u : Nat) = hexDigit (v : Nat) → u = v := by
  decide

/-- Two bytes with equal hex encodings are equal. -/
theorem hexPair_inj {a b : Nat} (ha : a < 256) (hb : b < 256)
    (h1 : hexDigit (a / 16) = hexDigit (b / 16))
    (h2 : hexDigit (a % 16) = hexDigit (b % 16)) : a = b := by
  have hd := hexDigit_inj_fin ⟨a / 16, by omega⟩ ⟨b / 16, by omega⟩ h1
  have hm := hexDigit_inj_fin ⟨a % 16, by omega⟩ ⟨b % 16, by omega⟩ h2
  have hd2 : a / 16 = b / 16 := congrArg Fin.val hd
  have hm2 : a % 16 = b % 16 := congrArg Fin.val hm
  omega

/-- Every byte of the generated UUID is below 256. -/
theorem uuidBytes_lt (r : Fin 16 → Fin 256) (i : Fin 16) :
    uuidBytes r i < 256 := by
  unfold uuidBytes
  split
  · exact setVersion4_lt (r 6)
  split
  · exact setVariantRFC4122_lt (r 8)
  · exact (r i).isLt

/-- Every identifier `genUuid` produces is RFC4122-v4 well formed. -/
theorem genUuid_validV4 (r : Fin 16 → Fin 256) :
    isValidV4 (genUuid r) = true := by
  simp [genUuid, uuidChars, uuidBytes, isValidV4, hexDigit_version_div,
    hexDigit_variant_div, isHexChar_div, isHexChar_mod,
    isHexChar_version_mod, isHexChar_variant_mod]

/-- The UUID string determines the (version- and variant-masked)
bytes: random inputs yielding different masked bytes yield different
identifiers. -/
theorem genUuid_inj (r1 r2 : Fin 16 → Fin 256)
    (hne : uuidBytes r1 ≠ uuidBytes r2) : genUuid r1 ≠ genUuid r2 := by
  intro heq
  apply hne
  have hl : uuidChars (uuidBytes r1) = uuidChars (uuidBytes r2) := by
    simpa [genUuid] using congrArg String.data heq
  simp only [uuidChars, List.cons.injEq, and_true] at hl
  obtain ⟨e0a, e0b, e1a, e1b, e2a, e2b, e3a, e3b, -, e4a, e4b, e5a, e5b, -,
    e6a, e6b, e7a, e7b, -, e8a, e8b, e9a, e9b, -, e10a, e10b, e11a, e11b,
    e12a, e12b, e13a, e13b, e14a, e14b, e15a, e15b⟩ := hl
  funext i
  fin_cases i
  · exact hexPair_inj (uuidBytes_lt r1 0) (uuidBytes_lt r2 0) e0a e0b
  · exact hexPair_inj (uuidBytes_lt r1 1) (uuidBytes_lt r2 1) e1a e1b
  · exact hexPair_inj (uuidBytes_lt r1 2) (uuidBytes_lt r2 2) e2a e2b
  · exact hexPair_inj (uuidBytes_lt r1 3) (uuidBytes_lt r2 3) e3a e3b
  · exact hexPair_inj (uuidBytes_lt r1 4) (uuidBytes_lt r2 4) e4a e4b
  · exact hexPair_inj (uuidBytes_lt r1 5) (uuidBytes_lt r2 5) e5a e5b
  · exact hexPair_inj (uuidBytes_lt r1 6) (uuidBytes_lt r2 6) e6a e6b
  · exact hexPair_inj (uuidBytes_lt r1 7) (uuidBytes_lt r2 7) e7a e7b
  · exact hexPair_inj (uuidBytes_lt r1 8) (uuidBytes_lt r2 8) e8a e8b
  · exact hexPair_inj (uuidBytes_lt r1 9) (uuidBytes_lt r2 9) e9a e9b
  · exact hexPair_inj (uuidBytes_lt r1 10) (uuidBytes_lt r2 10) e10a e10b
  · exact hexPair_inj (uuidBytes_lt r1 11) (uuidBytes_lt r2 11) e11a e11b
  · exact hexPair_inj (uuidBytes_lt r1 12) (uuidBytes_lt r2 12) e12a e12b
  · exact hexPair_inj (uuidBytes_lt r1 13) (uuidBytes_lt r2 13) e13a e13b
  · exact hexPair_inj (uuidBytes_lt r1 14) (uuidBytes_lt r2 14) e14a e14b
  · exact hexPair_inj (uuidBytes_lt r1 15) (uuidBytes_lt r2 15) e15a e15b

/-- Claim C8: a non-empty inbound `X-Request-ID` header is stored in
the request context and echoed unchanged on the response; an absent
(empty) header leads to a freshly generated identifier, attached to both
context and response, that is RFC4122-v4 well formed; and two
generations whose fresh random bytes differ (outside the bits
overwritten by the version and variant masks) produce different
identifiers. -/
theorem requestID_echo_generate_distinct :
    (∀ (h : String) (r : Fin 16 → Fin 256), h ≠ "" →
      (RequestIDMiddleware h r).ctxVal = h ∧
      (RequestIDMiddleware h r).respHeader = h) ∧
    (∀ r : Fin 16 → Fin 256,
      (RequestIDMiddleware "" r).ctxVal = genUuid r ∧
      (RequestIDMiddleware "" r).respHeader = genUuid r ∧
      isValidV4 ((RequestIDMiddleware "" r).respHeader) = true) ∧
    (∀ r1 r2 : Fin 16 → Fin 256, uuidBytes r1 ≠ uuidBytes r2 →
      genUuid r1 ≠ genUuid r2) := by
  refine ⟨fun h r hne => ?_, fun r => ?_, genUuid_inj⟩
  · simp [RequestIDMiddleware, hne]
  · exact ⟨rfl, rfl, genUuid_validV4 r⟩

/-- Concrete instance of the claim C8 theorem: the header "abc" is
echoed; the all-zero random source yields a well-formed version-4
identifier; the all-zero and all-255 random sources yield different
identifiers. -/
theorem requestID_echo_generate_distinct_witness :
    ((RequestIDMiddleware "abc" (fun _ => 0)).respHeader = "abc") ∧
    (isValidV4 ((RequestIDMiddleware "" (fun _ => 0)).respHeader) =
      true) ∧
    (genUuid (fun _ => 0) ≠ genUuid (fun _ => 255)) := by
  refine ⟨(requestID_echo_generate_distinct.1 "abc" (fun _ => 0)
      (by decide)).2,
    (requestID_echo_generate_distinct.2.1 (fun _ => 0)).2.2,
    requestID_echo_generate_distinct.2.2 (fun _ => 0) (fun _ => 255)
      ?_⟩
  intro hcon
  have hcon0 := congrFun hcon 0
  simp only [uuidBytes] at hcon0
  revert hcon0
  decide

end HerdMaster
